import Mathlib

/-!
Shallow embedding of the UDS index-layout engine (index-layout.c) and the
index page map (index-page-map.c), with theorems checking the stated
properties of those routines.

Machine integers are modelled as `Nat` with explicit reductions modulo
`2 ^ w` at the points where the C code truncates or wraps.  Error codes are
modelled as an enumeration since the numeric values live in a header that
only matters for interoperability, not for control flow.
-/

/-- Error/status codes returned by the engine (values of the C `int` results).
`UDS_SUCCESS` is the C value 0; the others are the distinct UDS error codes
used by the embedded routines. -/
inductive UdsStatus where
  | UDS_SUCCESS
  | UDS_BAD_STATE
  | UDS_INVALID_ARGUMENT
  | UDS_INCORRECT_ALIGNMENT
  | UDS_UNEXPECTED_RESULT
  | UDS_INDEX_NOT_SAVED_CLEANLY
  | UDS_ASSERTION_FAILED
  | UDS_NO_INDEX
  | UDS_UNSUPPORTED_VERSION
  | UDS_CORRUPT_DATA
  deriving DecidableEq, Repr, Inhabited

/-- Geometry fields consumed by the layout engine and the index page map
(struct geometry, config.h). -/
structure Geometry where
  bytes_per_page : Nat
  bytes_per_volume : Nat
  chapters_per_volume : Nat
  index_pages_per_chapter : Nat
  delta_lists_per_chapter : Nat
  deriving DecidableEq, Repr, Inhabited

/-- Number of stored page-map entries: `num_entries` in index-page-map.c.
The last index page of each chapter is implied, so it is not stored. -/
def num_entries (geometry : Geometry) : Nat :=
  geometry.chapters_per_volume * (geometry.index_pages_per_chapter - 1)

/-- In-memory index page map (struct index_page_map).  `entries` holds
`num_entries geometry` u16 values; reads use 0 for out-of-range slots,
matching a freshly zero-allocated array. -/
structure IndexPageMap where
  geometry : Geometry
  last_update : Nat
  entries : List Nat
  deriving DecidableEq, Repr, Inhabited

/-- Bounds record produced by `get_list_number_bounds`
(struct index_page_bounds). -/
structure IndexPageBounds where
  lowest_list : Nat
  highest_list : Nat
  deriving DecidableEq, Repr, Inhabited

/-- Embedding of `update_index_page_map` (index-page-map.c).  The C routine
stores `last_update` before performing its range checks, returns
`UDS_INVALID_ARGUMENT` on any out-of-range argument, silently succeeds on the
last index page of a chapter, and otherwise stores the delta-list number
(cast to u16) at slot `chapter * (pages - 1) + page`.  The result pairs the
returned status with the mutated map. -/
def update_index_page_map (map : IndexPageMap) (virtual_chapter_number : Nat)
    (chapter_number : Nat) (index_page_number : Nat)
    (delta_list_number : Nat) : UdsStatus × IndexPageMap :=
  let geometry := map.geometry
  let map := { map with last_update := virtual_chapter_number }
  if chapter_number ≥ geometry.chapters_per_volume then
    (.UDS_INVALID_ARGUMENT, map)
  else if index_page_number ≥ geometry.index_pages_per_chapter then
    (.UDS_INVALID_ARGUMENT, map)
  else if delta_list_number ≥ geometry.delta_lists_per_chapter then
    (.UDS_INVALID_ARGUMENT, map)
  else if index_page_number = geometry.index_pages_per_chapter - 1 then
    (.UDS_SUCCESS, map)
  else
    let slot := chapter_number * (geometry.index_pages_per_chapter - 1) +
      index_page_number
    (.UDS_SUCCESS,
      { map with entries := map.entries.set slot (delta_list_number % 2 ^ 16) })

/-- Embedding of `get_list_number_bounds` (index-page-map.c).  The two
`ASSERT`s on the chapter and page number yield `UDS_ASSERTION_FAILED` when
violated; otherwise the bounds are computed from the stored entries. -/
def get_list_number_bounds (map : IndexPageMap) (chapter_number : Nat)
    (index_page_number : Nat) : Except UdsStatus IndexPageBounds :=
  let geometry := map.geometry
  if ¬ (chapter_number < geometry.chapters_per_volume) then
    .error .UDS_ASSERTION_FAILED
  else if ¬ (index_page_number < geometry.index_pages_per_chapter) then
    .error .UDS_ASSERTION_FAILED
  else
    let slot := chapter_number * (geometry.index_pages_per_chapter - 1)
    .ok
      { lowest_list :=
          if index_page_number = 0 then 0
          else map.entries.getD (slot + index_page_number - 1) 0 + 1,
        highest_list :=
          if index_page_number = geometry.index_pages_per_chapter - 1 then
            geometry.delta_lists_per_chapter - 1
          else map.entries.getD (slot + index_page_number) 0 }

/-- Little-endian byte encoding of a 16-bit value (`encode_uint16_le`). -/
def encode_uint16_le (v : Nat) : List Nat :=
  [v % 2 ^ 8, v / 2 ^ 8 % 2 ^ 8]

/-- Little-endian byte encoding of a 32-bit value (`encode_uint32_le`). -/
def encode_uint32_le (v : Nat) : List Nat :=
  [v % 2 ^ 8, v / 2 ^ 8 % 2 ^ 8, v / 2 ^ 16 % 2 ^ 8, v / 2 ^ 24 % 2 ^ 8]

/-- Little-endian byte encoding of a 64-bit value (`encode_uint64_le`). -/
def encode_uint64_le (v : Nat) : List Nat :=
  [v % 2 ^ 8, v / 2 ^ 8 % 2 ^ 8, v / 2 ^ 16 % 2 ^ 8, v / 2 ^ 24 % 2 ^ 8,
   v / 2 ^ 32 % 2 ^ 8, v / 2 ^ 40 % 2 ^ 8, v / 2 ^ 48 % 2 ^ 8,
   v / 2 ^ 56 % 2 ^ 8]

/-- Two's-complement negation on u64: the value of `~x + 1` computed in
64-bit unsigned arithmetic. -/
def u64_neg (x : Nat) : Nat :=
  (2 ^ 64 - x % 2 ^ 64) % 2 ^ 64

/-- A murmurhash3_128-based digest as used by `hash_stuff`: the function
`fun data seed => get_unaligned_le64 (murmurhash3_128 data seed + 4)`.
The hash itself lives outside this repository (linux/murmurhash3.h), so the
embedding is parameterized by it; every theorem holds for an arbitrary
digest function. -/
abbrev MurmurDigest := List Nat → Nat → Nat

/-- Embedding of `hash_stuff` (index-layout.c): derive a 32-bit seed from the
64-bit `start` value and digest the data. -/
def hash_stuff (murmur : MurmurDigest) (start : Nat) (data : List Nat) : Nat :=
  murmur data ((start ^^^ start >>> 27) % 2 ^ 32)

/-- Embedding of `generate_primary_nonce` (index-layout.c). -/
def generate_primary_nonce (murmur : MurmurDigest) (data : List Nat) : Nat :=
  hash_stuff murmur 0xa1b1e0fc data

/-- Embedding of `generate_secondary_nonce` (index-layout.c); `nonce + 1` is
computed in u64 arithmetic. -/
def generate_secondary_nonce (murmur : MurmurDigest) (nonce : Nat)
    (data : List Nat) : Nat :=
  hash_stuff murmur ((nonce + 1) % 2 ^ 64) data

/-- Nonce input bytes built by `define_sub_index_nonce`: the 16-byte
`struct sub_index_nonce_data` buffer holding the sub-index start block and
the index id, with 6 trailing padding bytes left zero. -/
def sub_index_nonce_buffer (start_block : Nat) (index_id : Nat) : List Nat :=
  encode_uint64_le start_block ++ encode_uint16_le index_id ++
    [0, 0, 0, 0, 0, 0]

/-- Embedding of `define_sub_index_nonce` (index-layout.c), reduced to the
nonce value it stores into `sil->nonce`: a secondary nonce over the start
block and index id, recomputed once from `~primary_nonce + 1` when the first
result is 0. -/
def define_sub_index_nonce (murmur : MurmurDigest) (primary_nonce : Nat)
    (start_block : Nat) (index_id : Nat) : Nat :=
  let buffer := sub_index_nonce_buffer start_block index_id
  let nonce := generate_secondary_nonce murmur primary_nonce buffer
  if nonce = 0 then
    generate_secondary_nonce murmur (u64_neg primary_nonce) buffer
  else
    nonce

/-- Region kinds (enum region_kind, index-layout.h).  The numeric on-disk
values are immaterial to the embedded control flow, so the closed set is
modelled as an enumeration. -/
inductive RegionKind where
  | RL_KIND_SCRATCH
  | RL_KIND_HEADER
  | RL_KIND_CONFIG
  | RL_KIND_INDEX
  | RL_KIND_SEAL
  | RL_KIND_VOLUME
  | RL_KIND_SAVE
  | RL_KIND_INDEX_PAGE_MAP
  | RL_KIND_VOLUME_INDEX
  | RL_KIND_OPEN_CHAPTER
  deriving DecidableEq, Repr, Inhabited

/-- The shared instance number for regions with a single instance
(`RL_SOLE_INSTANCE`). -/
def RL_SOLE_INSTANCE : Nat := 65535

/-- Region-table header types (enum region_type). -/
def RH_TYPE_SUPER : Nat := 1

/-- RH_TYPE_SAVE from enum region_type. -/
def RH_TYPE_SAVE : Nat := 2

/-- RH_TYPE_UNSAVED from enum region_type. -/
def RH_TYPE_UNSAVED : Nat := 4

/-- A single region descriptor (struct layout_region).  The C field
`instance` is renamed `instance_id` because `instance` is a Lean keyword. -/
structure LayoutRegion where
  start_block : Nat
  num_blocks : Nat
  checksum : Nat
  kind : RegionKind
  instance_id : Nat
  deriving DecidableEq, Repr, Inhabited

/-- Header of an on-disk region table (struct region_header).  In the tables
handled here `num_regions` always equals the length of the accompanying
region list, so the embedding keeps only the fields reconstruction reads. -/
structure RegionHeader where
  region_blocks : Nat
  type : Nat
  deriving DecidableEq, Repr, Inhabited

/-- A decoded region table (struct region_table): header plus the decoded
region descriptors; `header.num_regions` is `regions.length`. -/
structure RegionTable where
  header : RegionHeader
  regions : List LayoutRegion
  deriving DecidableEq, Repr, Inhabited

/-- Persistent per-save metadata (struct index_save_data). -/
structure IndexSaveData where
  timestamp : Nat
  nonce : Nat
  version : Nat
  deriving DecidableEq, Repr, Inhabited

/-- Save type of an in-memory slot (enum index_save_type). -/
inductive IndexSaveType where
  | IS_SAVE
  | NO_SAVE
  deriving DecidableEq, Repr, Inhabited

/-- In-memory state of one save slot (struct index_save_layout).  The
`index_state_buffer` is an opaque byte buffer not consulted by any embedded
routine, so it is omitted.  `volume_index_zones` models the allocated zone
array; `open_chapter` models the possibly-NULL open-chapter region. -/
structure IndexSaveLayout where
  index_save : LayoutRegion
  header : LayoutRegion
  num_zones : Nat
  index_page_map : LayoutRegion
  free_space : LayoutRegion
  volume_index_zones : List LayoutRegion
  open_chapter : Option LayoutRegion
  save_type : IndexSaveType
  save_data : IndexSaveData
  read : Bool
  written : Bool
  deriving DecidableEq, Repr, Inhabited

/-- Nonce input bytes built by `generate_index_save_nonce`: the 32-byte
`struct SaveNonceData` holding the save data with its nonce field forced to
0, followed by the slot's start block. -/
def index_save_nonce_buffer (save_data : IndexSaveData)
    (start_block : Nat) : List Nat :=
  encode_uint64_le save_data.timestamp ++ encode_uint64_le 0 ++
    encode_uint32_le save_data.version ++ encode_uint32_le 0 ++
    encode_uint64_le start_block

/-- Embedding of `generate_index_save_nonce` (index-layout.c). -/
def generate_index_save_nonce (murmur : MurmurDigest) (volume_nonce : Nat)
    (isl : IndexSaveLayout) : Nat :=
  generate_secondary_nonce murmur volume_nonce
    (index_save_nonce_buffer isl.save_data isl.index_save.start_block)

/-- Embedding of `validate_index_save_layout` (index-layout.c): reject with
`UDS_BAD_STATE` when the slot is not a SAVE, has no zones, has a zero
timestamp, or its nonce differs from the recomputed save nonce; otherwise
succeed and yield the slot's timestamp. -/
def validate_index_save_layout (murmur : MurmurDigest)
    (isl : IndexSaveLayout) (volume_nonce : Nat) : Except UdsStatus Nat :=
  if isl.save_type = .NO_SAVE ∨ isl.num_zones = 0 ∨
      isl.save_data.timestamp = 0 then
    .error .UDS_BAD_STATE
  else if isl.save_data.nonce ≠ generate_index_save_nonce murmur volume_nonce isl then
    .error .UDS_BAD_STATE
  else
    .ok isl.save_data.timestamp

/-- The save time the selection loops work with: the validated timestamp, or
0 when `validate_index_save_layout` rejects the slot (both loops reset
`save_time` to 0 on a validation error). -/
def effective_save_time (murmur : MurmurDigest) (volume_nonce : Nat)
    (isl : IndexSaveLayout) : Nat :=
  match validate_index_save_layout murmur isl volume_nonce with
  | .ok t => t
  | .error _ => 0

/-- Loop of `select_oldest_index_save_layout`: walk the slots in array order
with their indices, keeping the first slot whose effective save time is
strictly smaller than the best so far (`oldest == NULL || save_time <
oldest_time`). -/
def select_oldest_loop (murmur : MurmurDigest) (volume_nonce : Nat) :
    List (Nat × IndexSaveLayout) → Option (Nat × Nat) → Option (Nat × Nat)
  | [], acc => acc
  | (i, isl) :: rest, acc =>
    let save_time := effective_save_time murmur volume_nonce isl
    let acc' :=
      match acc with
      | none => some (i, save_time)
      | some (oldest, oldest_time) =>
        if save_time < oldest_time then some (i, save_time)
        else some (oldest, oldest_time)
    select_oldest_loop murmur volume_nonce rest acc'

/-- Embedding of `select_oldest_index_save_layout` (index-layout.c), returning
the index of the chosen slot within the saves array (the C routine returns a
pointer into that array).  The final `ASSERT` yields `UDS_ASSERTION_FAILED`
when there is no slot at all. -/
def select_oldest_index_save_layout (murmur : MurmurDigest)
    (volume_nonce : Nat) (saves : List IndexSaveLayout) :
    Except UdsStatus Nat :=
  match select_oldest_loop murmur volume_nonce saves.enum none with
  | some (oldest, _) => .ok oldest
  | none => .error .UDS_ASSERTION_FAILED

/-- Loop of `select_latest_index_save_layout`: skip slots that fail
validation, keep the first slot whose save time is strictly greater than the
best so far (initially 0). -/
def select_latest_loop (murmur : MurmurDigest) (volume_nonce : Nat) :
    List (Nat × IndexSaveLayout) → Option Nat → Nat → Option Nat × Nat
  | [], latest, latest_time => (latest, latest_time)
  | (i, isl) :: rest, latest, latest_time =>
    match validate_index_save_layout murmur isl volume_nonce with
    | .error _ => select_latest_loop murmur volume_nonce rest latest latest_time
    | .ok save_time =>
      if save_time > latest_time then
        select_latest_loop murmur volume_nonce rest (some i) save_time
      else
        select_latest_loop murmur volume_nonce rest latest latest_time

/-- Embedding of `select_latest_index_save_layout` (index-layout.c), returning
the index of the chosen slot, or `UDS_INDEX_NOT_SAVED_CLEANLY` when no slot
validates. -/
def select_latest_index_save_layout (murmur : MurmurDigest)
    (volume_nonce : Nat) (saves : List IndexSaveLayout) :
    Except UdsStatus Nat :=
  match (select_latest_loop murmur volume_nonce saves.enum none 0).1 with
  | some latest => .ok latest
  | none => .error .UDS_INDEX_NOT_SAVED_CLEANLY

/-- The fixed block size of the layout (UDS_BLOCK_SIZE, 4096 bytes). -/
def UDS_BLOCK_SIZE : Nat := 4096

/-- Embedding of `block_count` (index-layout.c): bytes rounded up to whole
blocks. -/
def block_count (bytes : Nat) (block_size : Nat) : Nat :=
  bytes / block_size + (if bytes % block_size > 0 then 1 else 0)

/-- Embedding of `index_page_map_size` (index-page-map.c): two bytes per
stored entry. -/
def index_page_map_size (geometry : Geometry) : Nat :=
  2 * num_entries geometry

/-- Embedding of `compute_index_page_map_save_size` (index-page-map.c): the
entry bytes plus the 8-byte magic and the 8-byte `last_update`. -/
def compute_index_page_map_save_size (geometry : Geometry) : Nat :=
  index_page_map_size geometry + 8 + 8

/-- Computed sizes of a single-file layout (struct save_layout_sizes). -/
structure SaveLayoutSizes where
  num_saves : Nat
  block_size : Nat
  volume_blocks : Nat
  volume_index_blocks : Nat
  page_map_blocks : Nat
  open_chapter_blocks : Nat
  save_blocks : Nat
  sub_index_blocks : Nat
  total_blocks : Nat
  total_size : Nat
  deriving DecidableEq, Repr, Inhabited

/-- Embedding of `compute_sizes` (index-layout.c).  The two collaborator
sizes are passed in as values:  `volume_index_blocks` is the block count
delivered by `compute_volume_index_save_blocks` and `open_chapter_bytes` the
byte count delivered by `compute_saved_open_chapter_size`.  Both collaborators
are modelled from the spec (contracts
`compute_volume_index_save_blocks(config, block_size) → u64` and
`compute_saved_open_chapter_size(geometry) → u64`); their implementations
live in the volume-index and open-chapter modules, outside this file's
sources. -/
def compute_sizes (volume_index_blocks : Nat) (open_chapter_bytes : Nat)
    (geometry : Geometry) : Except UdsStatus SaveLayoutSizes :=
  if geometry.bytes_per_page % UDS_BLOCK_SIZE ≠ 0 then
    .error .UDS_INCORRECT_ALIGNMENT
  else
    let block_size := UDS_BLOCK_SIZE
    let volume_blocks := geometry.bytes_per_volume / block_size
    let page_map_blocks :=
      block_count (compute_index_page_map_save_size geometry) block_size
    let open_chapter_blocks := block_count open_chapter_bytes block_size
    let save_blocks :=
      1 + (volume_index_blocks + page_map_blocks + open_chapter_blocks)
    let sub_index_blocks := volume_blocks + 2 * save_blocks
    let total_blocks := 3 + sub_index_blocks
    .ok
      { num_saves := 2,
        block_size := block_size,
        volume_blocks := volume_blocks,
        volume_index_blocks := volume_index_blocks,
        page_map_blocks := page_map_blocks,
        open_chapter_blocks := open_chapter_blocks,
        save_blocks := save_blocks,
        sub_index_blocks := sub_index_blocks,
        total_blocks := total_blocks,
        total_size := total_blocks * block_size }

/-- In-memory superblock data (struct super_block_data).  The byte arrays
`magic_label` and `nonce_info` are kept as byte lists. -/
structure SuperBlockData where
  magic_label : List Nat
  nonce_info : List Nat
  nonce : Nat
  version : Nat
  block_size : Nat
  num_indexes : Nat
  max_saves : Nat
  open_chapter_blocks : Nat
  page_map_blocks : Nat
  volume_offset : Nat
  start_offset : Nat
  deriving DecidableEq, Repr, Inhabited

/-- In-memory sub-index layout (struct sub_index_layout).  The C `saves`
field is a pointer to the save-slot array; it is modelled by the slot list
itself (none of the routines embedded here mutate the slots through that
pointer while it is saved aside). -/
structure SubIndexLayout where
  sub_index : LayoutRegion
  nonce : Nat
  volume : LayoutRegion
  saves : List IndexSaveLayout
  deriving DecidableEq, Repr, Inhabited

/-- In-memory top-level layout (struct index_layout), without the io_factory
handle.  The C field `seal` is renamed `seal_region` because `seal` is a
Mathlib command name. -/
structure IndexLayout where
  offset : Nat
  super : SuperBlockData
  header : LayoutRegion
  config : LayoutRegion
  index : SubIndexLayout
  seal_region : LayoutRegion
  total_blocks : Nat
  deriving DecidableEq, Repr, Inhabited

/-- Subtraction in u64 arithmetic (the wrap-around value of `a - b` on
uint64_t). -/
def u64_sub (a : Nat) (b : Nat) : Nat :=
  (a % 2 ^ 64 + (2 ^ 64 - b % 2 ^ 64)) % 2 ^ 64

/-- Embedding of `update_uds_layout` (index-layout.c).  The two storage
writers `save_single_file_layout` and `write_uds_index_config` only read the
in-memory layout (they build and write transient buffers), so their embedded
stand-ins are status oracles applied to the converted layout and the block
offset; the theorems hold for every oracle.  The routine saves `super` and
`index`, installs the version-7 conversion values, writes, and restores the
two saved structures before returning. -/
def update_uds_layout (save_layout_result : IndexLayout → Nat → UdsStatus)
    (write_config_result : IndexLayout → Nat → UdsStatus)
    (layout : IndexLayout) (lvm_offset : Nat) (offset : Nat) :
    UdsStatus × IndexLayout :=
  let offset_blocks := offset / UDS_BLOCK_SIZE
  let lvm_blocks := lvm_offset / UDS_BLOCK_SIZE
  let super := layout.super
  let index := layout.index
  let layout :=
    { layout with
        super :=
          { layout.super with
              start_offset := lvm_blocks,
              volume_offset := offset_blocks,
              version := 7 },
        index :=
          { layout.index with
              sub_index :=
                { layout.index.sub_index with
                    num_blocks :=
                      u64_sub layout.index.sub_index.num_blocks offset_blocks },
              volume :=
                { layout.index.volume with
                    num_blocks :=
                      u64_sub layout.index.volume.num_blocks offset_blocks } },
        total_blocks := u64_sub layout.total_blocks offset_blocks }
  let result := save_layout_result layout offset_blocks
  let result :=
    if result = .UDS_SUCCESS then write_config_result layout offset_blocks
    else result
  (result, { layout with index := index, super := super })

/-- Region-table iterator (struct region_iterator).  The C cursor pair
`(next_region, last_region)` is modelled by the list of remaining regions. -/
structure RegionIterator where
  regions : List LayoutRegion
  next_block : Nat
  result : UdsStatus
  deriving DecidableEq, Repr, Inhabited

/-- Embedding of `expect_layout` (index-layout.c).  Returns whether the next
region met expectations, the region consumed on success (the value the C
routine writes through `lr`), and the advanced iterator.  A `num_blocks` of 0
means the block count is not checked.  When `expect` is false, running out of
regions or a kind mismatch is not recorded as an error; the other mismatches
always record `UDS_UNEXPECTED_RESULT`. -/
def expect_layout (expect : Bool) (iter : RegionIterator) (num_blocks : Nat)
    (kind : RegionKind) (instance_id : Nat) :
    Bool × Option LayoutRegion × RegionIterator :=
  if iter.result ≠ .UDS_SUCCESS then
    (false, none, iter)
  else
    match iter.regions with
    | [] =>
      if expect then
        (false, none, { iter with result := .UDS_UNEXPECTED_RESULT })
      else
        (false, none, iter)
    | r :: rest =>
      if r.start_block ≠ iter.next_block then
        (false, none, { iter with result := .UDS_UNEXPECTED_RESULT })
      else if r.kind ≠ kind then
        if expect then
          (false, none, { iter with result := .UDS_UNEXPECTED_RESULT })
        else
          (false, none, iter)
      else if r.instance_id ≠ instance_id then
        (false, none, { iter with result := .UDS_UNEXPECTED_RESULT })
      else if num_blocks > 0 ∧ r.num_blocks ≠ num_blocks then
        (false, none, { iter with result := .UDS_UNEXPECTED_RESULT })
      else
        (true, some r,
          { regions := rest,
            next_block := iter.next_block + r.num_blocks,
            result := iter.result })

/-- Embedding of `setup_layout` (index-layout.c): lay out one region at the
running address and advance the address by its size.  Returns the region and
the advanced address. -/
def setup_layout (next_addr : Nat) (region_size : Nat) (kind : RegionKind)
    (instance_id : Nat) : LayoutRegion × Nat :=
  ({ start_block := next_addr,
     num_blocks := region_size,
     checksum := 0,
     kind := kind,
     instance_id := instance_id },
   next_addr + region_size)

/-- Embedding of `populate_index_save_layout` (index-layout.c): carve the
save slot into header, index page map, `num_zones` volume-index zones, an
open chapter (only for an `IS_SAVE` with an allocated open-chapter region),
and trailing scratch space.  The zone array and the open-chapter region keep
their previous values when the C routine does not write them (`num_zones`
zero, or a NULL `open_chapter` pointer).  Note the routine does not write the
`num_zones` or `save_type` fields of the slot. -/
def populate_index_save_layout (isl : IndexSaveLayout)
    (super : SuperBlockData) (num_zones : Nat)
    (save_type : IndexSaveType) : IndexSaveLayout :=
  let start := isl.index_save.start_block
  let (header, next_block) := setup_layout start 1 .RL_KIND_HEADER
    RL_SOLE_INSTANCE
  let (index_page_map, next_block) := setup_layout next_block
    super.page_map_blocks .RL_KIND_INDEX_PAGE_MAP RL_SOLE_INSTANCE
  let blocks_avail :=
    u64_sub (u64_sub isl.index_save.num_blocks (next_block - start))
      super.open_chapter_blocks
  let (zones, next_block) :=
    if num_zones > 0 then
      let mi_block_count := blocks_avail / num_zones
      ((List.range num_zones).map (fun z =>
          { start_block := next_block + z * mi_block_count,
            num_blocks := mi_block_count,
            checksum := 0,
            kind := RegionKind.RL_KIND_VOLUME_INDEX,
            instance_id := z }),
        next_block + num_zones * mi_block_count)
    else
      (isl.volume_index_zones, next_block)
  let (open_chapter, next_block) :=
    if save_type = .IS_SAVE ∧ isl.open_chapter.isSome then
      let (oc, next_block) := setup_layout next_block
        super.open_chapter_blocks .RL_KIND_OPEN_CHAPTER RL_SOLE_INSTANCE
      (some oc, next_block)
    else
      (isl.open_chapter, next_block)
  let (free_space, _) := setup_layout next_block
    (u64_sub isl.index_save.num_blocks (next_block - start))
    .RL_KIND_SCRATCH RL_SOLE_INSTANCE
  { isl with
      header := header,
      index_page_map := index_page_map,
      volume_index_zones := zones,
      open_chapter := open_chapter,
      free_space := free_space }

/-- The zone-counting loop of `reconstruct_index_save`: starting from a copy
of the iterator, count how many consecutive regions match
`RL_KIND_VOLUME_INDEX` with instance numbers 0, 1, … (`expect_layout` with
`expect = false` and unchecked size: the scan stops at end of table, at a
region off its expected offset, at a kind mismatch, or at an instance
mismatch; errors recorded in the scratch iterator are discarded). -/
def count_volume_index_zones : List LayoutRegion → Nat → Nat → Nat
  | [], _, n => n
  | r :: rest, next_block, n =>
    if r.start_block = next_block ∧ r.kind = .RL_KIND_VOLUME_INDEX ∧
        r.instance_id = n then
      count_volume_index_zones rest (next_block + r.num_blocks) (n + 1)
    else
      n

/-- The zone re-scan loop of `reconstruct_index_save`: consume `count` zone
regions with ascending instance numbers starting at `z`, collecting the
regions written into `isl->volume_index_zones` (entries the C code leaves
unwritten on a failed expectation are modelled as `default`). -/
def expect_volume_index_zones (count : Nat) (z : Nat)
    (iter : RegionIterator) : List LayoutRegion × RegionIterator :=
  match count with
  | 0 => ([], iter)
  | c + 1 =>
    let (_, r, iter) := expect_layout true iter 0 .RL_KIND_VOLUME_INDEX z
    let (rest, iter) := expect_volume_index_zones c (z + 1) iter
    (r.getD default :: rest, iter)

/-- Embedding of `reconstruct_index_save` (index-layout.c).  The slot's zone
count, save data, read/written flags and save type are reset first (the save
type comes from the table header's type).  A degenerate table — no regions,
or a single SCRATCH region — is accepted as a fresh slot via
`populate_index_save_layout` with zero zones.  Otherwise the region iterator
walks header, index page map, the counted volume-index zones, an open
chapter when the save type is `IS_SAVE`, and scratch space (synthesised from
the residual blocks when absent), and the table must have been consumed
exactly. -/
def reconstruct_index_save (isl : IndexSaveLayout)
    (save_data : IndexSaveData) (super : SuperBlockData)
    (table : RegionTable) : UdsStatus × IndexSaveLayout :=
  let isl :=
    { isl with
        num_zones := 0,
        save_data := save_data,
        read := false,
        written := false,
        save_type :=
          if table.header.type = RH_TYPE_SAVE then IndexSaveType.IS_SAVE
          else IndexSaveType.NO_SAVE }
  if table.regions.length = 0 ∨
      (table.regions.length = 1 ∧
        (table.regions.getD 0 default).kind = .RL_KIND_SCRATCH) then
    (.UDS_SUCCESS, populate_index_save_layout isl super 0 .NO_SAVE)
  else
    let iter : RegionIterator :=
      { regions := table.regions,
        next_block := isl.index_save.start_block,
        result := .UDS_SUCCESS }
    let (_, header, iter) := expect_layout true iter 1 .RL_KIND_HEADER
      RL_SOLE_INSTANCE
    let (_, index_page_map, iter) := expect_layout true iter 0
      .RL_KIND_INDEX_PAGE_MAP RL_SOLE_INSTANCE
    let num_zones :=
      if iter.result = .UDS_SUCCESS then
        count_volume_index_zones iter.regions iter.next_block 0
      else 0
    let isl :=
      { isl with
          num_zones := num_zones,
          header := header.getD isl.header,
          index_page_map := index_page_map.getD isl.index_page_map }
    let (zones, iter) := expect_volume_index_zones num_zones 0 iter
    let isl :=
      if num_zones > 0 then { isl with volume_index_zones := zones } else isl
    let (open_chapter, iter) :=
      if isl.save_type = .IS_SAVE then
        let (_, oc, iter) := expect_layout true iter 0 .RL_KIND_OPEN_CHAPTER
          RL_SOLE_INSTANCE
        (some (oc.getD default), iter)
      else
        (isl.open_chapter, iter)
    let isl := { isl with open_chapter := open_chapter }
    let (scratch_ok, free_space, iter) := expect_layout false iter 0
      .RL_KIND_SCRATCH RL_SOLE_INSTANCE
    let (isl, iter) :=
      if scratch_ok then
        ({ isl with free_space := free_space.getD isl.free_space }, iter)
      else
        let fs : LayoutRegion :=
          { start_block := iter.next_block,
            num_blocks :=
              u64_sub (isl.index_save.start_block + isl.index_save.num_blocks)
                iter.next_block,
            checksum := 0,
            kind := .RL_KIND_SCRATCH,
            instance_id := RL_SOLE_INSTANCE }
        ({ isl with free_space := fs },
          { iter with next_block := fs.start_block + fs.num_blocks })
    if iter.result ≠ .UDS_SUCCESS then
      (iter.result, isl)
    else if iter.regions.length ≠ 0 then
      (.UDS_UNEXPECTED_RESULT, isl)
    else if iter.next_block ≠
        isl.index_save.start_block + isl.index_save.num_blocks then
      (.UDS_UNEXPECTED_RESULT, isl)
    else
      (.UDS_SUCCESS, isl)

deriving instance DecidableEq for Except

/-- Reading a just-written slot of a list yields the written value. -/
theorem list_getD_set_eq (l : List Nat) (i : Nat) (a : Nat)
    (h : i < l.length) : (l.set i a).getD i 0 = a := by
  rw [List.getD_eq_getElem _ _ (by simpa using h)]
  simp [List.getElem_set_self]

/-- Writing one slot of a list leaves every other slot unchanged. -/
theorem list_getD_set_ne (l : List Nat) (i j : Nat) (a : Nat)
    (h : i ≠ j) : (l.set i a).getD j 0 = l.getD j 0 := by
  rcases lt_or_le j l.length with hj | hj
  · rw [List.getD_eq_getElem _ _ (by simpa using hj),
      List.getD_eq_getElem _ _ hj]
    exact List.getElem_set_ne h _
  · rw [List.getD_eq_default _ _ (by simpa using hj),
      List.getD_eq_default _ _ hj]

/-- The slot written for an in-range `(chapter, page)` pair lies inside the
entry array of a well-formed map. -/
theorem page_map_slot_lt_num_entries (geometry : Geometry)
    (chapter_number index_page_number : Nat)
    (hc : chapter_number < geometry.chapters_per_volume)
    (hp : index_page_number < geometry.index_pages_per_chapter - 1) :
    chapter_number * (geometry.index_pages_per_chapter - 1) +
      index_page_number < num_entries geometry := by
  unfold num_entries
  calc chapter_number * (geometry.index_pages_per_chapter - 1) +
        index_page_number
      < (chapter_number + 1) * (geometry.index_pages_per_chapter - 1) := by
        rw [Nat.succ_mul]; omega
    _ ≤ geometry.chapters_per_volume *
        (geometry.index_pages_per_chapter - 1) :=
        Nat.mul_le_mul_right _ hc

/-- C9: `update_index_page_map` stores `last_update` before its range
checks, so an out-of-range chapter, page, or delta-list number yields
`UDS_INVALID_ARGUMENT` while `last_update` has nevertheless been set to the
virtual chapter number. -/
theorem update_index_page_map_sets_last_update_on_error
    (map : IndexPageMap) (vchap chap page dlist : Nat)
    (h : map.geometry.chapters_per_volume ≤ chap ∨
      map.geometry.index_pages_per_chapter ≤ page ∨
      map.geometry.delta_lists_per_chapter ≤ dlist) :
    (update_index_page_map map vchap chap page dlist).1 =
      .UDS_INVALID_ARGUMENT ∧
    (update_index_page_map map vchap chap page dlist).2.last_update =
      vchap := by
  unfold update_index_page_map
  dsimp only
  split_ifs with h1 h2 h3 h4 <;> simp_all

/-- Witness for `update_index_page_map_sets_last_update_on_error` at a
chapter number past the geometry's maximum. -/
theorem update_index_page_map_sets_last_update_on_error_witness :
    (update_index_page_map
        { geometry :=
            { bytes_per_page := 4096, bytes_per_volume := 0,
              chapters_per_volume := 1, index_pages_per_chapter := 2,
              delta_lists_per_chapter := 5 },
          last_update := 0, entries := [0] } 7 3 0 0).1 =
      .UDS_INVALID_ARGUMENT ∧
    (update_index_page_map
        { geometry :=
            { bytes_per_page := 4096, bytes_per_volume := 0,
              chapters_per_volume := 1, index_pages_per_chapter := 2,
              delta_lists_per_chapter := 5 },
          last_update := 0, entries := [0] } 7 3 0 0).2.last_update = 7 :=
  update_index_page_map_sets_last_update_on_error _ 7 3 0 0 (by decide)

/-- C8: an in-range update aimed at the last index page of a chapter
succeeds without touching the entry array, and querying the bounds of that
page afterwards still reports `delta_lists_per_chapter - 1` as the highest
list. -/
theorem update_index_page_map_last_page_frame
    (map : IndexPageMap) (vchap chap dlist : Nat)
    (hc : chap < map.geometry.chapters_per_volume)
    (hp : 0 < map.geometry.index_pages_per_chapter)
    (hl : dlist < map.geometry.delta_lists_per_chapter) :
    (update_index_page_map map vchap chap
        (map.geometry.index_pages_per_chapter - 1) dlist).1 =
      .UDS_SUCCESS ∧
    (update_index_page_map map vchap chap
        (map.geometry.index_pages_per_chapter - 1) dlist).2.entries =
      map.entries ∧
    ∃ b : IndexPageBounds,
      get_list_number_bounds
          (update_index_page_map map vchap chap
            (map.geometry.index_pages_per_chapter - 1) dlist).2
          chap (map.geometry.index_pages_per_chapter - 1) =
        .ok b ∧
      b.highest_list = map.geometry.delta_lists_per_chapter - 1 := by
  unfold update_index_page_map
  dsimp only
  rw [if_neg (by omega : ¬ chap ≥ map.geometry.chapters_per_volume),
    if_neg (by omega : ¬ map.geometry.index_pages_per_chapter - 1 ≥
      map.geometry.index_pages_per_chapter),
    if_neg (by omega : ¬ dlist ≥ map.geometry.delta_lists_per_chapter),
    if_pos rfl]
  refine ⟨rfl, rfl, ?_⟩
  unfold get_list_number_bounds
  dsimp only
  rw [if_neg (not_not_intro hc), if_neg (not_not_intro (by omega :
    map.geometry.index_pages_per_chapter - 1 <
      map.geometry.index_pages_per_chapter))]
  exact ⟨_, rfl, by simp⟩

/-- Witness for `update_index_page_map_last_page_frame` on a two-page
geometry. -/
theorem update_index_page_map_last_page_frame_witness :
    (update_index_page_map
        { geometry :=
            { bytes_per_page := 4096, bytes_per_volume := 0,
              chapters_per_volume := 1, index_pages_per_chapter := 2,
              delta_lists_per_chapter := 5 },
          last_update := 0, entries := [3] } 6 0 1 2).1 = .UDS_SUCCESS ∧
    (update_index_page_map
        { geometry :=
            { bytes_per_page := 4096, bytes_per_volume := 0,
              chapters_per_volume := 1, index_pages_per_chapter := 2,
              delta_lists_per_chapter := 5 },
          last_update := 0, entries := [3] } 6 0 1 2).2.entries = [3] ∧
    ∃ b : IndexPageBounds,
      get_list_number_bounds
          (update_index_page_map
            { geometry :=
                { bytes_per_page := 4096, bytes_per_volume := 0,
                  chapters_per_volume := 1, index_pages_per_chapter := 2,
                  delta_lists_per_chapter := 5 },
              last_update := 0, entries := [3] } 6 0 1 2).2 0 1 =
        .ok b ∧
      b.highest_list = 4 :=
  update_index_page_map_last_page_frame _ 6 0 2 (by decide) (by decide)
    (by decide)

/-- C1 counterexample: on a one-chapter, two-page geometry whose stored
entry for page 0 is 4, the in-range update `(vchap 1, chapter 0, page 1,
list 0)` succeeds (page 1 is the implied last page), yet the bounds of
`(0, 1)` come back as `lowest_list = 5, highest_list = 4`, so
`lowest_list ≤ list` fails for `list = 0`. -/
theorem update_then_bounds_counterexample :
    (update_index_page_map
        { geometry :=
            { bytes_per_page := 4096, bytes_per_volume := 0,
              chapters_per_volume := 1, index_pages_per_chapter := 2,
              delta_lists_per_chapter := 5 },
          last_update := 0, entries := [4] } 1 0 1 0).1 = .UDS_SUCCESS ∧
    get_list_number_bounds
        (update_index_page_map
          { geometry :=
              { bytes_per_page := 4096, bytes_per_volume := 0,
                chapters_per_volume := 1, index_pages_per_chapter := 2,
                delta_lists_per_chapter := 5 },
            last_update := 0, entries := [4] } 1 0 1 0).2 0 1 =
      .ok { lowest_list := 5, highest_list := 4 } ∧
    ¬ (5 : Nat) ≤ 0 := by decide

/-- C1 amended: for an in-range update on a well-formed map (entry array of
the geometry's size, u16-representable delta lists), the subsequent bounds
query on the same chapter and page always satisfies
`list ≤ highest_list`, while `lowest_list ≤ list` holds exactly when the
page is 0 or the entry stored for the preceding page of that chapter was
below `list`. -/
theorem update_then_bounds_amended
    (map : IndexPageMap) (vchap chap page dlist : Nat)
    (hc : chap < map.geometry.chapters_per_volume)
    (hp : page < map.geometry.index_pages_per_chapter)
    (hl : dlist < map.geometry.delta_lists_per_chapter)
    (hu : map.geometry.delta_lists_per_chapter ≤ 2 ^ 16)
    (hlen : map.entries.length = num_entries map.geometry) :
    (update_index_page_map map vchap chap page dlist).1 = .UDS_SUCCESS ∧
    ∃ b : IndexPageBounds,
      get_list_number_bounds
          (update_index_page_map map vchap chap page dlist).2 chap page =
        .ok b ∧
      dlist ≤ b.highest_list ∧
      (b.lowest_list ≤ dlist ↔
        (page = 0 ∨
          map.entries.getD
            (chap * (map.geometry.index_pages_per_chapter - 1) + page - 1)
            0 < dlist)) := by
  have hmod : dlist % 2 ^ 16 = dlist := Nat.mod_eq_of_lt (by omega)
  by_cases hlast : page = map.geometry.index_pages_per_chapter - 1
  · subst hlast
    unfold update_index_page_map
    dsimp only
    rw [if_neg (by omega : ¬ chap ≥ map.geometry.chapters_per_volume),
      if_neg (by omega : ¬ map.geometry.index_pages_per_chapter - 1 ≥
        map.geometry.index_pages_per_chapter),
      if_neg (by omega : ¬ dlist ≥ map.geometry.delta_lists_per_chapter),
      if_pos rfl]
    refine ⟨rfl, ?_⟩
    unfold get_list_number_bounds
    dsimp only
    rw [if_neg (not_not_intro hc), if_neg (not_not_intro hp)]
    refine ⟨_, rfl, ?_, ?_⟩
    · dsimp only
      rw [if_pos rfl]
      omega
    · by_cases hz : map.geometry.index_pages_per_chapter - 1 = 0
      · simp [hz]
      · dsimp only
        rw [if_neg hz]
        constructor
        · intro hle
          exact Or.inr (by omega)
        · rintro (h0 | h0) <;> omega
  · unfold update_index_page_map
    dsimp only
    rw [if_neg (by omega : ¬ chap ≥ map.geometry.chapters_per_volume),
      if_neg (by omega : ¬ page ≥ map.geometry.index_pages_per_chapter),
      if_neg (by omega : ¬ dlist ≥ map.geometry.delta_lists_per_chapter),
      if_neg hlast]
    refine ⟨rfl, ?_⟩
    unfold get_list_number_bounds
    dsimp only
    rw [if_neg (not_not_intro hc), if_neg (not_not_intro hp)]
    have hslot : chap * (map.geometry.index_pages_per_chapter - 1) + page <
        map.entries.length := by
      rw [hlen]
      exact page_map_slot_lt_num_entries map.geometry chap page hc (by omega)
    refine ⟨_, rfl, ?_, ?_⟩
    · dsimp only
      rw [if_neg hlast, list_getD_set_eq _ _ _ hslot, hmod]
    · by_cases hz : page = 0
      · simp [hz]
      · dsimp only
        rw [if_neg hz, list_getD_set_ne _ _ _ _ (by omega)]
        constructor
        · intro hle
          exact Or.inr (by omega)
        · rintro (h0 | h0) <;> omega

/-- Witness for `update_then_bounds_amended`: writing list 3 to page 0 of a
fresh two-page geometry yields bounds `(0, 3)` around the written list. -/
theorem update_then_bounds_amended_witness :
    (update_index_page_map
        { geometry :=
            { bytes_per_page := 4096, bytes_per_volume := 0,
              chapters_per_volume := 1, index_pages_per_chapter := 2,
              delta_lists_per_chapter := 5 },
          last_update := 0, entries := [0] } 1 0 0 3).1 = .UDS_SUCCESS ∧
    ∃ b : IndexPageBounds,
      get_list_number_bounds
          (update_index_page_map
            { geometry :=
                { bytes_per_page := 4096, bytes_per_volume := 0,
                  chapters_per_volume := 1, index_pages_per_chapter := 2,
                  delta_lists_per_chapter := 5 },
              last_update := 0, entries := [0] } 1 0 0 3).2 0 0 =
        .ok b ∧
      3 ≤ b.highest_list ∧
      (b.lowest_list ≤ 3 ↔ (0 = 0 ∨ ([0] : List Nat).getD (0 * (2 - 1) + 0 - 1) 0 < 3)) :=
  update_then_bounds_amended _ 1 0 0 3 (by decide) (by decide) (by decide)
    (by norm_num) (by decide)

/-- C2: `validate_index_save_layout` succeeds with the slot's timestamp
exactly when the slot is a SAVE with a positive zone count, a nonzero
timestamp, and a nonce matching the secondary nonce recomputed from the
sub-index (volume) nonce over the save data with its nonce field zeroed
followed by the slot's start block; in every other case it returns
`UDS_BAD_STATE`. -/
theorem validate_index_save_layout_characterization
    (murmur : MurmurDigest) (isl : IndexSaveLayout) (volume_nonce : Nat) :
    (validate_index_save_layout murmur isl volume_nonce =
        .ok isl.save_data.timestamp ↔
      (isl.save_type = .IS_SAVE ∧ 0 < isl.num_zones ∧
        isl.save_data.timestamp ≠ 0 ∧
        isl.save_data.nonce =
          generate_secondary_nonce murmur volume_nonce
            (index_save_nonce_buffer isl.save_data
              isl.index_save.start_block))) ∧
    (¬ (isl.save_type = .IS_SAVE ∧ 0 < isl.num_zones ∧
        isl.save_data.timestamp ≠ 0 ∧
        isl.save_data.nonce =
          generate_secondary_nonce murmur volume_nonce
            (index_save_nonce_buffer isl.save_data
              isl.index_save.start_block)) →
      validate_index_save_layout murmur isl volume_nonce =
        .error .UDS_BAD_STATE) := by
  unfold validate_index_save_layout generate_index_save_nonce
  constructor
  · constructor
    · intro hok
      split_ifs at hok with h1 h2
      push_neg at h1
      rcases h1 with ⟨hs, hz, ht⟩
      refine ⟨?_, by omega, ht, by simpa using h2⟩
      cases hst : isl.save_type
      · rfl
      · exact absurd hst hs
    · rintro ⟨hs, hz, ht, hn⟩
      rw [if_neg (by simp [hs, ht]; omega), if_neg (by simpa using hn)]
  · intro hbad
    split_ifs with h1 h2
    · rfl
    · rfl
    · push_neg at h1
      rcases h1 with ⟨hs, hz, ht⟩
      exfalso
      apply hbad
      refine ⟨?_, by omega, ht, by simpa using h2⟩
      cases hst : isl.save_type
      · rfl
      · exact absurd hst hs

/-- C5 counterexample: for the digest that maps every input to 0 (a
behaviour the murmur collaborator contract does not rule out), both the
original and the recomputed secondary nonce are 0, and
`define_sub_index_nonce` returns 0 — the retry is performed once and its
result is not checked again. -/
theorem define_sub_index_nonce_zero_counterexample :
    define_sub_index_nonce (fun _ _ => 0) 1 2 0 = 0 := by
  decide

/-- C5 amended: the sub-index nonce is the first secondary nonce when that
is nonzero, and otherwise the single recomputation from `~base + 1`; hence
it is 0 exactly when both secondary-nonce computations over the sub-index
start block and index id return 0. -/
theorem define_sub_index_nonce_zero_iff
    (murmur : MurmurDigest) (primary_nonce start_block index_id : Nat) :
    define_sub_index_nonce murmur primary_nonce start_block index_id = 0 ↔
      (generate_secondary_nonce murmur primary_nonce
          (sub_index_nonce_buffer start_block index_id) = 0 ∧
        generate_secondary_nonce murmur (u64_neg primary_nonce)
          (sub_index_nonce_buffer start_block index_id) = 0) := by
  unfold define_sub_index_nonce
  dsimp only
  split_ifs with h <;> simp [h]

/-- Invariant of the `select_oldest` loop: starting from a candidate
`(bi, bt)`, the loop either keeps the candidate — in which case the
candidate's time is a lower bound for every remaining slot — or switches to
the first remaining slot that strictly improves on it, which is then the
earliest minimum of the remaining slots. -/
theorem select_oldest_loop_spec (murmur : MurmurDigest) (volume_nonce : Nat)
    (saves : List IndexSaveLayout) :
    ∀ (k bi bt : Nat),
      ∃ ri rt,
        select_oldest_loop murmur volume_nonce (List.enumFrom k saves)
            (some (bi, bt)) = some (ri, rt) ∧
        ((ri = bi ∧ rt = bt ∧
            ∀ j, j < saves.length →
              bt ≤ effective_save_time murmur volume_nonce
                (saves.getD j default)) ∨
          (∃ j, j < saves.length ∧ ri = k + j ∧
            rt = effective_save_time murmur volume_nonce
              (saves.getD j default) ∧
            rt < bt ∧
            (∀ j2, j2 < saves.length →
              rt ≤ effective_save_time murmur volume_nonce
                (saves.getD j2 default)) ∧
            (∀ j2, j2 < j →
              rt < effective_save_time murmur volume_nonce
                (saves.getD j2 default)))) := by
  induction saves with
  | nil =>
    intro k bi bt
    exact ⟨bi, bt, rfl, Or.inl ⟨rfl, rfl, fun j hj => by simp at hj⟩⟩
  | cons s rest ih =>
    intro k bi bt
    rw [show List.enumFrom k (s :: rest) =
      (k, s) :: List.enumFrom (k + 1) rest from by simp [List.enumFrom]]
    simp only [select_oldest_loop]
    by_cases hlt : effective_save_time murmur volume_nonce s < bt
    · rw [if_pos hlt]
      obtain ⟨ri, rt, hrun, hcase⟩ :=
        ih (k + 1) k (effective_save_time murmur volume_nonce s)
      refine ⟨ri, rt, hrun, Or.inr ?_⟩
      rcases hcase with ⟨hri, hrt, hmin⟩ |
        ⟨j, hj, hri, hrt, hlt2, hmin, hfirst⟩
      · refine ⟨0, by simp, by omega,
          by simp only [List.getD_cons_zero]; exact hrt, by omega, ?_, ?_⟩
        · intro j2 hj2
          cases j2 with
          | zero => simp only [List.getD_cons_zero]; omega
          | succ j2 =>
            simp only [List.getD_cons_succ]
            rw [hrt]
            exact hmin j2 (by simpa using hj2)
        · intro j2 hj2
          omega
      · refine ⟨j + 1, by simp only [List.length_cons]; omega, by omega,
          by simp only [List.getD_cons_succ]; exact hrt, by omega, ?_, ?_⟩
        · intro j2 hj2
          cases j2 with
          | zero => simp only [List.getD_cons_zero]; omega
          | succ j2 =>
            simp only [List.getD_cons_succ]
            exact hmin j2 (by simpa using hj2)
        · intro j2 hj2
          cases j2 with
          | zero => simp only [List.getD_cons_zero]; exact hlt2
          | succ j2 =>
            simp only [List.getD_cons_succ]
            exact hfirst j2 (by omega)
    · rw [if_neg hlt]
      obtain ⟨ri, rt, hrun, hcase⟩ := ih (k + 1) bi bt
      refine ⟨ri, rt, hrun, ?_⟩
      rcases hcase with ⟨hri, hrt, hmin⟩ |
        ⟨j, hj, hri, hrt, hltb, hmin, hfirst⟩
      · refine Or.inl ⟨hri, hrt, ?_⟩
        intro j2 hj2
        cases j2 with
        | zero => simp only [List.getD_cons_zero]; omega
        | succ j2 =>
          simp only [List.getD_cons_succ]
          exact hmin j2 (by simpa using hj2)
      · refine Or.inr ⟨j + 1, by simp only [List.length_cons]; omega,
          by omega, by simp only [List.getD_cons_succ]; exact hrt, hltb,
          ?_, ?_⟩
        · intro j2 hj2
          cases j2 with
          | zero => simp only [List.getD_cons_zero]; omega
          | succ j2 =>
            simp only [List.getD_cons_succ]
            exact hmin j2 (by simpa using hj2)
        · intro j2 hj2
          cases j2 with
          | zero => simp only [List.getD_cons_zero]; omega
          | succ j2 =>
            simp only [List.getD_cons_succ]
            exact hfirst j2 (by omega)

/-- C3: on a nonempty saves array, `select_oldest_index_save_layout` returns
the index of the slot with the smallest effective save time — the validated
timestamp, or 0 for a slot that fails validation (which therefore beats any
nonzero timestamp) — and among equal minima the earliest index wins. -/
theorem select_oldest_picks_first_minimum (murmur : MurmurDigest)
    (volume_nonce : Nat) (saves : List IndexSaveLayout)
    (h : saves ≠ []) :
    ∃ i, select_oldest_index_save_layout murmur volume_nonce saves =
        .ok i ∧
      i < saves.length ∧
      (∀ j, j < saves.length →
        effective_save_time murmur volume_nonce (saves.getD i default) ≤
          effective_save_time murmur volume_nonce (saves.getD j default)) ∧
      (∀ j, j < i →
        effective_save_time murmur volume_nonce (saves.getD i default) <
          effective_save_time murmur volume_nonce (saves.getD j default)) := by
  cases saves with
  | nil => exact absurd rfl h
  | cons s rest =>
    unfold select_oldest_index_save_layout
    rw [show (s :: rest).enum =
      (0, s) :: List.enumFrom 1 rest from by simp [List.enum, List.enumFrom]]
    simp only [select_oldest_loop]
    obtain ⟨ri, rt, hrun, hcase⟩ :=
      select_oldest_loop_spec murmur volume_nonce rest 1 0
        (effective_save_time murmur volume_nonce s)
    rw [hrun]
    rcases hcase with ⟨hri, hrt, hmin⟩ |
      ⟨j, hj, hri, hrt, hlt, hmin, hfirst⟩
    · subst hri
      refine ⟨0, rfl, by simp, ?_, ?_⟩
      · intro j2 hj2
        cases j2 with
        | zero => exact le_refl _
        | succ j2 =>
          simp only [List.getD_cons_zero, List.getD_cons_succ]
          exact hmin j2 (by simpa using hj2)
      · intro j2 hj2
        omega
    · have hri' : ri = j + 1 := by omega
      subst hri'
      refine ⟨j + 1, rfl, by simp only [List.length_cons]; omega, ?_, ?_⟩
      · intro j2 hj2
        cases j2 with
        | zero =>
          simp only [List.getD_cons_zero, List.getD_cons_succ]
          rw [← hrt]
          omega
        | succ j2 =>
          simp only [List.getD_cons_succ]
          rw [← hrt]
          exact hmin j2 (by simpa using hj2)
      · intro j2 hj2
        cases j2 with
        | zero =>
          simp only [List.getD_cons_zero, List.getD_cons_succ]
          rw [← hrt]
          omega
        | succ j2 =>
          simp only [List.getD_cons_succ]
          rw [← hrt]
          exact hfirst j2 (by omega)

/-- Witness for `select_oldest_picks_first_minimum` on a two-slot array of
fresh (invalid) slots: slot 0 is chosen. -/
theorem select_oldest_picks_first_minimum_witness :
    ∃ i, select_oldest_index_save_layout (fun _ _ => 0) 0
        [default, default] = .ok i ∧
      i < 2 ∧
      (∀ j, j < 2 →
        effective_save_time (fun _ _ => 0) 0
            (([default, default] : List IndexSaveLayout).getD i default) ≤
          effective_save_time (fun _ _ => 0) 0
            (([default, default] : List IndexSaveLayout).getD j default)) ∧
      (∀ j, j < i →
        effective_save_time (fun _ _ => 0) 0
            (([default, default] : List IndexSaveLayout).getD i default) <
          effective_save_time (fun _ _ => 0) 0
            (([default, default] : List IndexSaveLayout).getD j default)) :=
  select_oldest_picks_first_minimum (fun _ _ => 0) 0 [default, default]
    (by simp)

/-- A save slot validates either to `UDS_BAD_STATE` or to its own (nonzero)
timestamp. -/
theorem validate_result (murmur : MurmurDigest) (isl : IndexSaveLayout)
    (volume_nonce : Nat) :
    validate_index_save_layout murmur isl volume_nonce =
        .error .UDS_BAD_STATE ∨
      (validate_index_save_layout murmur isl volume_nonce =
          .ok isl.save_data.timestamp ∧
        isl.save_data.timestamp ≠ 0) := by
  unfold validate_index_save_layout
  split_ifs with h1 h2
  · exact Or.inl rfl
  · exact Or.inl rfl
  · exact Or.inr ⟨rfl, by push_neg at h1; exact h1.2.2⟩

/-- A successful validation yields exactly the slot's timestamp, which is
nonzero. -/
theorem validate_ok_inv (murmur : MurmurDigest) (isl : IndexSaveLayout)
    (volume_nonce : Nat) (t : Nat)
    (h : validate_index_save_layout murmur isl volume_nonce = .ok t) :
    t = isl.save_data.timestamp ∧ t ≠ 0 := by
  rcases validate_result murmur isl volume_nonce with he | ⟨hok, hne⟩
  · rw [he] at h
    cases h
  · rw [hok] at h
    cases h
    exact ⟨rfl, hne⟩

/-- Invariant of the `select_latest` loop: starting from a candidate and its
time, the loop either keeps the candidate — then the candidate's time bounds
every remaining validated timestamp — or switches to a remaining slot that
validates to a strictly larger time, which then bounds all remaining
validated timestamps. -/
theorem select_latest_loop_spec (murmur : MurmurDigest) (volume_nonce : Nat)
    (saves : List IndexSaveLayout) :
    ∀ (k : Nat) (latest : Option Nat) (latest_time : Nat),
      ∃ rl rt,
        select_latest_loop murmur volume_nonce (List.enumFrom k saves)
            latest latest_time = (rl, rt) ∧
        ((rl = latest ∧ rt = latest_time ∧
            ∀ j, j < saves.length → ∀ t,
              validate_index_save_layout murmur (saves.getD j default)
                  volume_nonce = .ok t →
                t ≤ latest_time) ∨
          (∃ j, j < saves.length ∧ rl = some (k + j) ∧
            validate_index_save_layout murmur (saves.getD j default)
                volume_nonce = .ok rt ∧
            latest_time < rt ∧
            ∀ j2, j2 < saves.length → ∀ t,
              validate_index_save_layout murmur (saves.getD j2 default)
                  volume_nonce = .ok t →
                t ≤ rt)) := by
  induction saves with
  | nil =>
    intro k latest latest_time
    exact ⟨latest, latest_time, rfl,
      Or.inl ⟨rfl, rfl, fun j hj => by simp at hj⟩⟩
  | cons s rest ih =>
    intro k latest latest_time
    rw [show List.enumFrom k (s :: rest) =
      (k, s) :: List.enumFrom (k + 1) rest from by simp [List.enumFrom]]
    simp only [select_latest_loop]
    cases hv : validate_index_save_layout murmur s volume_nonce with
    | error e =>
      obtain ⟨rl, rt, hrun, hcase⟩ := ih (k + 1) latest latest_time
      refine ⟨rl, rt, hrun, ?_⟩
      rcases hcase with ⟨hrl, hrt, hmax⟩ | ⟨j, hj, hrl, hvj, hpos, hmax⟩
      · refine Or.inl ⟨hrl, hrt, ?_⟩
        intro j2 hj2 t ht
        cases j2 with
        | zero =>
          simp only [List.getD_cons_zero] at ht
          rw [hv] at ht
          cases ht
        | succ j2 =>
          simp only [List.getD_cons_succ] at ht
          exact hmax j2 (by simpa using hj2) t ht
      · refine Or.inr ⟨j + 1, by simp only [List.length_cons]; omega,
          by rw [hrl]; congr 1; omega,
          by simp only [List.getD_cons_succ]; exact hvj, hpos, ?_⟩
        intro j2 hj2 t ht
        cases j2 with
        | zero =>
          simp only [List.getD_cons_zero] at ht
          rw [hv] at ht
          cases ht
        | succ j2 =>
          simp only [List.getD_cons_succ] at ht
          exact hmax j2 (by simpa using hj2) t ht
    | ok save_time =>
      dsimp only
      by_cases hgt : save_time > latest_time
      · rw [if_pos hgt]
        obtain ⟨rl, rt, hrun, hcase⟩ := ih (k + 1) (some k) save_time
        refine ⟨rl, rt, hrun, Or.inr ?_⟩
        rcases hcase with ⟨hrl, hrt, hmax⟩ | ⟨j, hj, hrl, hvj, hpos, hmax⟩
        · refine ⟨0, by simp, by rw [hrl, Nat.add_zero],
            by simp only [List.getD_cons_zero]; rw [hrt]; exact hv, by omega,
            ?_⟩
          intro j2 hj2 t ht
          cases j2 with
          | zero =>
            simp only [List.getD_cons_zero] at ht
            rw [hv] at ht
            cases ht
            omega
          | succ j2 =>
            simp only [List.getD_cons_succ] at ht
            have := hmax j2 (by simpa using hj2) t ht
            omega
        · refine ⟨j + 1, by simp only [List.length_cons]; omega,
            by rw [hrl]; congr 1; omega,
            by simp only [List.getD_cons_succ]; exact hvj, by omega, ?_⟩
          intro j2 hj2 t ht
          cases j2 with
          | zero =>
            simp only [List.getD_cons_zero] at ht
            rw [hv] at ht
            cases ht
            omega
          | succ j2 =>
            simp only [List.getD_cons_succ] at ht
            exact hmax j2 (by simpa using hj2) t ht
      · rw [if_neg hgt]
        obtain ⟨rl, rt, hrun, hcase⟩ := ih (k + 1) latest latest_time
        refine ⟨rl, rt, hrun, ?_⟩
        rcases hcase with ⟨hrl, hrt, hmax⟩ | ⟨j, hj, hrl, hvj, hpos, hmax⟩
        · refine Or.inl ⟨hrl, hrt, ?_⟩
          intro j2 hj2 t ht
          cases j2 with
          | zero =>
            simp only [List.getD_cons_zero] at ht
            rw [hv] at ht
            cases ht
            omega
          | succ j2 =>
            simp only [List.getD_cons_succ] at ht
            exact hmax j2 (by simpa using hj2) t ht
        · refine Or.inr ⟨j + 1, by simp only [List.length_cons]; omega,
            by rw [hrl]; congr 1; omega,
            by simp only [List.getD_cons_succ]; exact hvj, hpos, ?_⟩
          intro j2 hj2 t ht
          cases j2 with
          | zero =>
            simp only [List.getD_cons_zero] at ht
            rw [hv] at ht
            cases ht
            omega
          | succ j2 =>
            simp only [List.getD_cons_succ] at ht
            exact hmax j2 (by simpa using hj2) t ht

/-- C4: `select_latest_index_save_layout` returns the index of a slot that
passes validation whose timestamp is greatest among all validating slots,
and it returns `UDS_INDEX_NOT_SAVED_CLEANLY` exactly when no slot passes
validation (every slot validates to `UDS_BAD_STATE`). -/
theorem select_latest_characterization (murmur : MurmurDigest)
    (volume_nonce : Nat) (saves : List IndexSaveLayout) :
    (∀ i, select_latest_index_save_layout murmur volume_nonce saves =
        .ok i →
      i < saves.length ∧
      validate_index_save_layout murmur (saves.getD i default)
          volume_nonce =
        .ok (saves.getD i default).save_data.timestamp ∧
      (∀ j, j < saves.length → ∀ t,
        validate_index_save_layout murmur (saves.getD j default)
            volume_nonce = .ok t →
          t ≤ (saves.getD i default).save_data.timestamp)) ∧
    (select_latest_index_save_layout murmur volume_nonce saves =
        .error .UDS_INDEX_NOT_SAVED_CLEANLY ↔
      ∀ j, j < saves.length →
        validate_index_save_layout murmur (saves.getD j default)
            volume_nonce = .error .UDS_BAD_STATE) := by
  obtain ⟨rl, rt, hrun, hcase⟩ :=
    select_latest_loop_spec murmur volume_nonce saves 0 none 0
  unfold select_latest_index_save_layout
  rw [show saves.enum = List.enumFrom 0 saves from rfl, hrun]
  rcases hcase with ⟨hrl, _, hmax⟩ | ⟨j, hj, hrl, hvj, hpos, hmax⟩
  · subst hrl
    constructor
    · intro i hi
      simp at hi
    · constructor
      · intro _ j2 hj2
        rcases validate_result murmur (saves.getD j2 default) volume_nonce
          with he | ⟨hok, hne⟩
        · exact he
        · have := hmax j2 hj2 _ hok
          omega
      · intro _
        rfl
  · subst hrl
    constructor
    · intro i hi
      simp only [Nat.zero_add] at hi ⊢
      cases hi
      obtain ⟨ht, hne⟩ := validate_ok_inv murmur _ volume_nonce rt hvj
      refine ⟨hj, ?_, ?_⟩
      · rw [← ht]
        simpa [Nat.zero_add] using hvj
      · intro j2 hj2 t htv
        rw [← ht]
        simpa [Nat.zero_add] using hmax j2 hj2 t htv
    · constructor
      · intro he
        simp at he
      · intro hall
        rw [hall j hj] at hvj
        simp at hvj

/-- Witness for `select_latest_characterization` on a two-slot array of
fresh slots: no slot validates, so the not-saved-cleanly error is returned.
-/
theorem select_latest_characterization_witness :
    (∀ i, select_latest_index_save_layout (fun _ _ => 0) 0
        [default, default] = .ok i →
      i < 2 ∧
      validate_index_save_layout (fun _ _ => 0)
          (([default, default] : List IndexSaveLayout).getD i default) 0 =
        .ok (([default, default] : List IndexSaveLayout).getD i
          default).save_data.timestamp ∧
      (∀ j, j < 2 → ∀ t,
        validate_index_save_layout (fun _ _ => 0)
            (([default, default] : List IndexSaveLayout).getD j default) 0 =
          .ok t →
        t ≤ (([default, default] : List IndexSaveLayout).getD i
          default).save_data.timestamp)) ∧
    (select_latest_index_save_layout (fun _ _ => 0) 0 [default, default] =
        .error .UDS_INDEX_NOT_SAVED_CLEANLY ↔
      ∀ j, j < 2 →
        validate_index_save_layout (fun _ _ => 0)
            (([default, default] : List IndexSaveLayout).getD j default) 0 =
          .error .UDS_BAD_STATE) :=
  select_latest_characterization (fun _ _ => 0) 0 [default, default]

/-- C6: `compute_sizes` fails with `UDS_INCORRECT_ALIGNMENT` exactly when the
geometry's page size is not a multiple of the block size; otherwise it
succeeds with sizes satisfying
`save_blocks = 1 + volume_index_blocks + page_map_blocks +
open_chapter_blocks`, `sub_index_blocks = volume_blocks + 2 * save_blocks`,
and `total_blocks = 3 + sub_index_blocks`, for any values delivered by the
volume-index and open-chapter size collaborators. -/
theorem compute_sizes_characterization (volume_index_blocks : Nat)
    (open_chapter_bytes : Nat) (geometry : Geometry) :
    (compute_sizes volume_index_blocks open_chapter_bytes geometry =
        .error .UDS_INCORRECT_ALIGNMENT ↔
      geometry.bytes_per_page % UDS_BLOCK_SIZE ≠ 0) ∧
    (geometry.bytes_per_page % UDS_BLOCK_SIZE = 0 →
      ∃ sls : SaveLayoutSizes,
        compute_sizes volume_index_blocks open_chapter_bytes geometry =
          .ok sls ∧
        sls.save_blocks =
          1 + sls.volume_index_blocks + sls.page_map_blocks +
            sls.open_chapter_blocks ∧
        sls.sub_index_blocks = sls.volume_blocks + 2 * sls.save_blocks ∧
        sls.total_blocks = 3 + sls.sub_index_blocks) := by
  unfold compute_sizes
  by_cases h : geometry.bytes_per_page % UDS_BLOCK_SIZE = 0
  · rw [if_neg (not_not_intro h)]
    exact ⟨by simp [h], fun _ => ⟨_, rfl, by dsimp only; omega, rfl, rfl⟩⟩
  · rw [if_pos h]
    exact ⟨by simp [h], fun hc => absurd hc h⟩

/-- Witness for `compute_sizes_characterization` at an aligned geometry. -/
theorem compute_sizes_characterization_witness :
    (compute_sizes 5 100
        { bytes_per_page := 4096, bytes_per_volume := 16384,
          chapters_per_volume := 4, index_pages_per_chapter := 3,
          delta_lists_per_chapter := 10 } =
          .error .UDS_INCORRECT_ALIGNMENT ↔
      (4096 : Nat) % UDS_BLOCK_SIZE ≠ 0) ∧
    ((4096 : Nat) % UDS_BLOCK_SIZE = 0 →
      ∃ sls : SaveLayoutSizes,
        compute_sizes 5 100
          { bytes_per_page := 4096, bytes_per_volume := 16384,
            chapters_per_volume := 4, index_pages_per_chapter := 3,
            delta_lists_per_chapter := 10 } = .ok sls ∧
        sls.save_blocks =
          1 + sls.volume_index_blocks + sls.page_map_blocks +
            sls.open_chapter_blocks ∧
        sls.sub_index_blocks = sls.volume_blocks + 2 * sls.save_blocks ∧
        sls.total_blocks = 3 + sls.sub_index_blocks) :=
  compute_sizes_characterization 5 100
    { bytes_per_page := 4096, bytes_per_volume := 16384,
      chapters_per_volume := 4, index_pages_per_chapter := 3,
      delta_lists_per_chapter := 10 }

/-- C7 counterexample: a degenerate (zero-region) on-disk table whose header
type is `RH_TYPE_SAVE` reconstructs successfully with zero zones, but the
slot's save type remains `IS_SAVE` — the degenerate path passes `NO_SAVE`
only as a carving parameter to `populate_index_save_layout`, which never
writes the `save_type` field, and the field was set from the header type
before the degenerate check. -/
theorem reconstruct_index_save_degenerate_counterexample :
    (reconstruct_index_save default default default
        { header := { region_blocks := 0, type := RH_TYPE_SAVE },
          regions := [] }).1 = .UDS_SUCCESS ∧
    (reconstruct_index_save default default default
        { header := { region_blocks := 0, type := RH_TYPE_SAVE },
          regions := [] }).2.num_zones = 0 ∧
    (reconstruct_index_save default default default
        { header := { region_blocks := 0, type := RH_TYPE_SAVE },
          regions := [] }).2.save_type = .IS_SAVE ∧
    IndexSaveType.IS_SAVE ≠ .NO_SAVE := by
  decide

/-- C7 amended: a save slot whose on-disk region table has zero regions, or
exactly one region of kind SCRATCH, reconstructs successfully with zero
zones; its save type is `NO_SAVE` when the table header's type is not
`RH_TYPE_SAVE` (and remains `IS_SAVE` for a SAVE-typed degenerate table). -/
theorem reconstruct_index_save_degenerate (isl : IndexSaveLayout)
    (save_data : IndexSaveData) (super : SuperBlockData)
    (table : RegionTable)
    (h : table.regions.length = 0 ∨
      (table.regions.length = 1 ∧
        (table.regions.getD 0 default).kind = .RL_KIND_SCRATCH)) :
    (reconstruct_index_save isl save_data super table).1 = .UDS_SUCCESS ∧
    (reconstruct_index_save isl save_data super table).2.num_zones = 0 ∧
    (reconstruct_index_save isl save_data super table).2.save_type =
      (if table.header.type = RH_TYPE_SAVE then IndexSaveType.IS_SAVE
        else IndexSaveType.NO_SAVE) := by
  unfold reconstruct_index_save
  dsimp only
  rw [if_pos h]
  refine ⟨rfl, ?_, ?_⟩ <;>
    simp [populate_index_save_layout, setup_layout]

/-- Witness for `reconstruct_index_save_degenerate`: an UNSAVED-typed table
with a single SCRATCH region loads as a fresh slot with save type
`NO_SAVE`. -/
theorem reconstruct_index_save_degenerate_witness :
    (reconstruct_index_save default default default
        { header := { region_blocks := 8, type := RH_TYPE_UNSAVED },
          regions := [{ start_block := 0, num_blocks := 8, checksum := 0,
                        kind := .RL_KIND_SCRATCH,
                        instance_id := RL_SOLE_INSTANCE }] }).1 =
      .UDS_SUCCESS ∧
    (reconstruct_index_save default default default
        { header := { region_blocks := 8, type := RH_TYPE_UNSAVED },
          regions := [{ start_block := 0, num_blocks := 8, checksum := 0,
                        kind := .RL_KIND_SCRATCH,
                        instance_id := RL_SOLE_INSTANCE }] }).2.num_zones =
      0 ∧
    (reconstruct_index_save default default default
        { header := { region_blocks := 8, type := RH_TYPE_UNSAVED },
          regions := [{ start_block := 0, num_blocks := 8, checksum := 0,
                        kind := .RL_KIND_SCRATCH,
                        instance_id := RL_SOLE_INSTANCE }] }).2.save_type =
      (if (RH_TYPE_UNSAVED : Nat) = RH_TYPE_SAVE then IndexSaveType.IS_SAVE
        else IndexSaveType.NO_SAVE) :=
  reconstruct_index_save_degenerate default default default
    { header := { region_blocks := 8, type := RH_TYPE_UNSAVED },
      regions := [{ start_block := 0, num_blocks := 8, checksum := 0,
                    kind := .RL_KIND_SCRATCH,
                    instance_id := RL_SOLE_INSTANCE }] }
    (by decide)

/-- C10: whatever statuses the storage writes return, `update_uds_layout`
hands back an in-memory layout whose superblock data and sub-index layout
are field-for-field identical to their values before the call: both
structures are saved aside before the conversion values are installed and
restored before returning. -/
theorem update_uds_layout_restores_memory
    (save_layout_result : IndexLayout → Nat → UdsStatus)
    (write_config_result : IndexLayout → Nat → UdsStatus)
    (layout : IndexLayout) (lvm_offset : Nat) (offset : Nat) :
    (update_uds_layout save_layout_result write_config_result layout
        lvm_offset offset).2.super = layout.super ∧
    (update_uds_layout save_layout_result write_config_result layout
        lvm_offset offset).2.index = layout.index := by
  unfold update_uds_layout
  exact ⟨rfl, rfl⟩

/-- Witness for `validate_index_save_layout_characterization` at a fresh
slot (zero zones), which is rejected with `UDS_BAD_STATE`. -/
theorem validate_index_save_layout_characterization_witness :
    (validate_index_save_layout (fun _ _ => 0) default 0 =
        .ok (default : IndexSaveLayout).save_data.timestamp ↔
      ((default : IndexSaveLayout).save_type = .IS_SAVE ∧
        0 < (default : IndexSaveLayout).num_zones ∧
        (default : IndexSaveLayout).save_data.timestamp ≠ 0 ∧
        (default : IndexSaveLayout).save_data.nonce =
          generate_secondary_nonce (fun _ _ => 0) 0
            (index_save_nonce_buffer (default : IndexSaveLayout).save_data
              (default : IndexSaveLayout).index_save.start_block))) ∧
    (¬ ((default : IndexSaveLayout).save_type = .IS_SAVE ∧
        0 < (default : IndexSaveLayout).num_zones ∧
        (default : IndexSaveLayout).save_data.timestamp ≠ 0 ∧
        (default : IndexSaveLayout).save_data.nonce =
          generate_secondary_nonce (fun _ _ => 0) 0
            (index_save_nonce_buffer (default : IndexSaveLayout).save_data
              (default : IndexSaveLayout).index_save.start_block)) →
      validate_index_save_layout (fun _ _ => 0) default 0 =
        .error .UDS_BAD_STATE) :=
  validate_index_save_layout_characterization (fun _ _ => 0) default 0

/-- Witness for `define_sub_index_nonce_zero_iff` at the constant-1 digest:
the nonce is 1 and neither secondary-nonce computation is 0. -/
theorem define_sub_index_nonce_zero_iff_witness :
    define_sub_index_nonce (fun _ _ => 1) 0 0 0 = 0 ↔
      (generate_secondary_nonce (fun _ _ => 1) 0
          (sub_index_nonce_buffer 0 0) = 0 ∧
        generate_secondary_nonce (fun _ _ => 1) (u64_neg 0)
          (sub_index_nonce_buffer 0 0) = 0) :=
  define_sub_index_nonce_zero_iff (fun _ _ => 1) 0 0 0
